import Mathlib

/-!
Verification of the diabetics_pred fusion/risk/simulation core.

The numeric model is ℚ (exact rational arithmetic) standing in for Python
floats; all operations the verified claims exercise are additions,
multiplications, comparisons and divisions with nonzero checked denominators,
so the rational model tracks the float code exactly on the inputs considered.
Python's `ZeroDivisionError` paths are made explicit via `Except` values.
-/

namespace DiabetesPred

/-! ## Calibrator (backend/agents/lifestyle_agent.py, `_calibrate_probability`) -/

/-- Embeds `LifestyleAgent._calibrate_probability`: maps the observed
`[0.4, 1.0]` output range linearly onto `[0, 1]`, with `np.clip(x, 0, 1)`
rendered as `min (max x 0) 1`. -/
def calibrateProbability (prob : ℚ) : ℚ :=
  let minProb : ℚ := 2/5
  let maxProb : ℚ := 1
  if prob ≤ minProb then 0
  else if prob ≥ maxProb then 1
  else min (max ((prob - minProb) / (maxProb - minProb)) 0) 1

/-! ## Risk scorer (backend/models/fusion/risk_scorer.py) -/

/-- A lifestyle risk factor as consumed by `RiskScorer`: only the
`modifiable` flag and the `importance` score are read by the code
(`f.get('modifiable', False)`, `f.get('importance', 0.0)`). -/
structure LifFactor where
  modifiable : Bool
  importance : ℚ
  deriving DecidableEq

/-- The retinal findings dict as consumed by `RiskScorer`: the code reads
only its truthiness (`if retinal_findings:`, i.e. the dict is nonempty) and
`retinal_findings.get('total_features_detected', 0)`. -/
structure RetFindings where
  nonempty : Bool
  totalFeaturesDetected : ℤ
  deriving DecidableEq

/-- Embeds `RiskScorer._get_risk_level`. -/
def getRiskLevel (score : ℚ) : String :=
  if score < 3/10 then "low"
  else if score < 1/2 then "moderate"
  else if score < 7/10 then "high"
  else "very_high"

/-- Embeds `RiskScorer._calculate_confidence`. -/
def calculateConfidence (score : ℚ) (retinalFindings : RetFindings)
    (lifestyleFactors : List LifFactor) : ℚ :=
  let c0 : ℚ := 3/4
  let c1 := if retinalFindings.nonempty then c0 + 1/10 else c0
  let c2 := if 3 ≤ lifestyleFactors.length then c1 + 1/10 else c1
  let borderline := |score - 3/10| < 1/20 ∨ |score - 1/2| < 1/20 ∨ |score - 7/10| < 1/20
  let c3 := if borderline then c2 - 1/10 else c2
  min (max c3 (1/2)) (19/20)

/-- Embeds the `interpretations` lookup of `RiskScorer._interpret_risk`
(`interpretations.get(risk_level, "Unable to determine risk level")`). -/
def interpretationBase (riskLevel : String) : String :=
  if riskLevel = "low" then
    "Your current risk of developing diabetes is low. Continue maintaining healthy lifestyle habits."
  else if riskLevel = "moderate" then
    "You have a moderate risk of developing diabetes. Making lifestyle changes now can significantly reduce your risk."
  else if riskLevel = "high" then
    "You have a high risk of developing diabetes. We strongly recommend implementing preventive measures and consulting with a healthcare provider."
  else if riskLevel = "very_high" then
    "You have a very high risk of developing diabetes. Please consult with a healthcare provider as soon as possible for comprehensive evaluation and intervention."
  else "Unable to determine risk level"

/-- Embeds `RiskScorer._interpret_risk` (the `score` argument is unused by
the source body and is omitted). -/
def interpretRisk (riskLevel : String) (retinalFindings : RetFindings)
    (lifestyleFactors : List LifFactor) : String :=
  let base := interpretationBase riskLevel
  let base2 := if 0 < retinalFindings.totalFeaturesDetected then
      base ++ " Retinal signs consistent with diabetes have been detected."
    else base
  let modifiableCount := (lifestyleFactors.filter (fun f => f.modifiable)).length
  if lifestyleFactors ≠ [] ∧ 0 < modifiableCount then
    base2 ++ " You have " ++ toString modifiableCount ++ " modifiable risk factor(s) that you can address."
  else base2

/-- Embeds `RiskScorer._get_priority`. -/
def getPriority (riskLevel : String) : String :=
  if riskLevel = "low" then "routine"
  else if riskLevel = "moderate" then "elevated"
  else if riskLevel = "high" then "urgent"
  else if riskLevel = "very_high" then "critical"
  else "routine"

/-- Embeds `RiskScorer._get_recommended_action`. -/
def getRecommendedAction (riskLevel : String) : String :=
  if riskLevel = "low" then
    "Continue healthy lifestyle habits. Schedule routine check-up in 12 months."
  else if riskLevel = "moderate" then
    "Implement lifestyle modifications. Schedule check-up in 6 months."
  else if riskLevel = "high" then
    "Begin preventive interventions immediately. Consult healthcare provider within 1 month."
  else if riskLevel = "very_high" then
    "Seek immediate medical evaluation. Schedule appointment within 1-2 weeks."
  else "Consult with healthcare provider"

/-- The assessment dict returned by `RiskScorer.assess`. -/
structure Assessment where
  riskLevel : String
  confidence : ℚ
  interpretation : String
  priority : String
  recommendedAction : String
  deriving DecidableEq

/-- Embeds `RiskScorer.assess`. -/
def assess (fusedScore : ℚ) (retinalFindings : RetFindings)
    (lifestyleFactors : List LifFactor) : Assessment :=
  let riskLevel := getRiskLevel fusedScore
  { riskLevel := riskLevel
    confidence := calculateConfidence fusedScore retinalFindings lifestyleFactors
    interpretation := interpretRisk riskLevel retinalFindings lifestyleFactors
    priority := getPriority riskLevel
    recommendedAction := getRecommendedAction riskLevel }

/-- Embeds `RiskScorer.calculate_prevention_potential`. -/
def calculatePreventionPotential (lifestyleFactors : List LifFactor) : ℚ :=
  if lifestyleFactors = [] then 0
  else
    let modifiableFactors := lifestyleFactors.filter (fun f => f.modifiable)
    if modifiableFactors = [] then 1/10
    else min (modifiableFactors.map (fun f => f.importance)).sum (4/5)

/-! ## Ensemble fusion (backend/models/fusion/ensemble.py) -/

/-- Embeds `EnsembleFusion._weighted_average`.  `useOptimizedWeights` is the
instance flag `self.use_optimized_weights`; `retinalWeightBase` /
`lifestyleWeightBase` are the instance weights loaded at construction time.
The `total_confidence > 0` division guard of the source is kept; the
renormalizing division by `total` in the non-optimized branch is unguarded in
the source (a zero there would raise and be caught by `fuse`), and in this
rational model a zero denominator yields 0 by ℚ convention — no verified
claim exercises that branch. -/
def weightedAverage (useOptimizedWeights : Bool)
    (retinalWeightBase lifestyleWeightBase : ℚ)
    (retinalRisk lifestyleRisk retinalConfidence lifestyleConfidence : ℚ) : ℚ :=
  if useOptimizedWeights then
    retinalWeightBase * retinalRisk + lifestyleWeightBase * lifestyleRisk
  else
    let totalConfidence := retinalConfidence + lifestyleConfidence
    if 0 < totalConfidence then
      let confFactorRetinal := retinalConfidence / totalConfidence
      let confFactorLifestyle := lifestyleConfidence / totalConfidence
      let rw := retinalWeightBase * (7/10) + confFactorRetinal * (3/10)
      let lw := lifestyleWeightBase * (7/10) + confFactorLifestyle * (3/10)
      let total := rw + lw
      (rw / total) * retinalRisk + (lw / total) * lifestyleRisk
    else
      retinalWeightBase * retinalRisk + lifestyleWeightBase * lifestyleRisk

/-- Embeds `EnsembleFusion.fuse`: dispatch on the method string, then clamp
to `[0,1]` via `min(max(fused, 0.0), 1.0)`.  `np.sqrt` has no exact rational
counterpart, so the square root used by the `geometric_mean` branch is passed
in as `sqrtFn`; no verified claim exercises that branch. -/
def fuse (sqrtFn : ℚ → ℚ) (method : String) (useOptimizedWeights : Bool)
    (retinalWeightBase lifestyleWeightBase : ℚ)
    (retinalRisk lifestyleRisk retinalConfidence lifestyleConfidence : ℚ) : ℚ :=
  let fused :=
    if method = "weighted_average" then
      weightedAverage useOptimizedWeights retinalWeightBase lifestyleWeightBase
        retinalRisk lifestyleRisk retinalConfidence lifestyleConfidence
    else if method = "max" then max retinalRisk lifestyleRisk
    else if method = "min" then min retinalRisk lifestyleRisk
    else if method = "geometric_mean" then sqrtFn (retinalRisk * lifestyleRisk)
    else
      weightedAverage useOptimizedWeights retinalWeightBase lifestyleWeightBase
        retinalRisk lifestyleRisk retinalConfidence lifestyleConfidence
  min (max fused 0) 1

/-! ## Simulation agent (backend/agents/simulation_agent.py)

The `_simulate_*` helpers each compute
`risk_reduction_percent = (current_risk - projected_risk) / current_risk * 100`
with no zero guard: in Python a zero `current_risk` raises `ZeroDivisionError`.
That fallible division is modelled by `divPct` returning `Except`.  The
`description` and `action_items` fields (static text, with float string
formatting in `description`) are omitted from the `Simulation` record: no
claim concerns them and float formatting has no exact rational counterpart. -/

/-- Python division `a / b * 100`, raising `ZeroDivisionError` when `b = 0`. -/
def divPct (a b : ℚ) : Except String ℚ :=
  if b = 0 then Except.error "float division by zero" else Except.ok (a / b * 100)

/-- One what-if simulation record (see module comment for omitted static
text fields). -/
structure Simulation where
  intervention : String
  currentRisk : ℚ
  projectedRisk : ℚ
  riskReductionPercent : ℚ
  timeframe : String
  difficulty : String
  impact : String
  deriving DecidableEq

/-- Embeds `SimulationAgent._simulate_weight_loss` (the `target_bmi`
local feeds only the omitted `description` string). -/
def simulateWeightLoss (currentRisk currentBmi : ℚ) : Except String Simulation := do
  let riskReduction : ℚ := 15/100
  let projectedRisk := max (currentRisk - riskReduction) 0
  let pct ← divPct (currentRisk - projectedRisk) currentRisk
  Except.ok { intervention := "Weight Loss", currentRisk := currentRisk,
              projectedRisk := projectedRisk, riskReductionPercent := pct,
              timeframe := "3-6 months", difficulty := "moderate", impact := "high" }

/-- Embeds `SimulationAgent._simulate_increased_activity`. -/
def simulateIncreasedActivity (currentRisk currentActivity : ℚ) : Except String Simulation := do
  let riskReduction : ℚ := 10/100
  let projectedRisk := max (currentRisk - riskReduction) 0
  let pct ← divPct (currentRisk - projectedRisk) currentRisk
  Except.ok { intervention := "Increased Physical Activity", currentRisk := currentRisk,
              projectedRisk := projectedRisk, riskReductionPercent := pct,
              timeframe := "2-3 months", difficulty := "moderate", impact := "moderate-high" }

/-- Embeds `SimulationAgent._simulate_better_sleep`. -/
def simulateBetterSleep (currentRisk currentSleep : ℚ) : Except String Simulation := do
  let riskReduction : ℚ := 8/100
  let projectedRisk := max (currentRisk - riskReduction) 0
  let pct ← divPct (currentRisk - projectedRisk) currentRisk
  Except.ok { intervention := "Improved Sleep Quality", currentRisk := currentRisk,
              projectedRisk := projectedRisk, riskReductionPercent := pct,
              timeframe := "1-2 months", difficulty := "easy-moderate", impact := "moderate" }

/-- Embeds `SimulationAgent._simulate_healthy_diet`. -/
def simulateHealthyDiet (currentRisk : ℚ) : Except String Simulation := do
  let riskReduction : ℚ := 12/100
  let projectedRisk := max (currentRisk - riskReduction) 0
  let pct ← divPct (currentRisk - projectedRisk) currentRisk
  Except.ok { intervention := "Healthy Diet Adoption", currentRisk := currentRisk,
              projectedRisk := projectedRisk, riskReductionPercent := pct,
              timeframe := "3-4 months", difficulty := "moderate", impact := "high" }

/-- Embeds `SimulationAgent._simulate_quit_smoking`. -/
def simulateQuitSmoking (currentRisk : ℚ) : Except String Simulation := do
  let riskReduction : ℚ := 18/100
  let projectedRisk := max (currentRisk - riskReduction) 0
  let pct ← divPct (currentRisk - projectedRisk) currentRisk
  Except.ok { intervention := "Smoking Cessation", currentRisk := currentRisk,
              projectedRisk := projectedRisk, riskReductionPercent := pct,
              timeframe := "6-12 months", difficulty := "hard", impact := "very high" }

/-- Embeds `SimulationAgent._simulate_combined_changes` (its
`lifestyle_data` argument is unused by the numeric logic and is omitted). -/
def simulateCombinedChanges (currentRisk : ℚ) : Except String Simulation := do
  let riskReduction : ℚ := 35/100
  let projectedRisk := max (currentRisk - riskReduction) 0
  let pct ← divPct (currentRisk - projectedRisk) currentRisk
  Except.ok { intervention := "Comprehensive Lifestyle Change", currentRisk := currentRisk,
              projectedRisk := projectedRisk, riskReductionPercent := pct,
              timeframe := "6-12 months", difficulty := "hard", impact := "very high" }

/-- A raw lifestyle-form field value as seen by `safe_float`: Python `None`
(missing key), the empty string, a value on which `float()` raises
(`ValueError`/`TypeError`), or a numeric value (numbers, booleans and
numeric strings, which `float()` converts). -/
inductive FieldVal where
  | missing
  | emptyStr
  | nonNumeric
  | num (q : ℚ)
  deriving DecidableEq

/-- Embeds the `safe_float` helper nested in `SimulationAgent.execute`. -/
def safeFloat (value : FieldVal) (default : ℚ) : ℚ :=
  match value with
  | .num q => q
  | _ => default

/-- True when `safe_float` falls back to its default for this value. -/
def FieldVal.defaulted : FieldVal → Bool
  | .num _ => false
  | _ => true

/-- The lifestyle-data fields read by `SimulationAgent.execute`:
`bmi`, `physical_activity`, `sleep_hours` (through `safe_float`) and the
truthiness of `lifestyle_data.get('smoking', False)`. -/
structure LifestyleData where
  bmi : FieldVal
  physicalActivity : FieldVal
  sleepHours : FieldVal
  smoking : Bool
  deriving DecidableEq

/-- Python `min(simulations, key=lambda x: x['projected_risk'])`: the first
element attaining the minimal key (`min` keeps the current candidate unless
a strictly smaller key appears); `none` on the empty list (where Python
raises `ValueError`). -/
def pythonMinBy (f : Simulation → ℚ) : List Simulation → Option Simulation
  | [] => none
  | x :: xs => some (xs.foldl (fun acc s => if f s < f acc then s else acc) x)

/-- The body of `SimulationAgent.execute`'s `try` block: build the
conditionally-included simulations in the source's fixed order, then select
`best_scenario`.  Any `ZeroDivisionError` raised by a `_simulate_*` helper
propagates out of the block (to be caught by `execute`). -/
def executeInner (riskScore : ℚ) (lifestyleData : LifestyleData) :
    Except String (List Simulation × Simulation) := do
  let bmi := safeFloat lifestyleData.bmi 0
  let physicalActivity := safeFloat lifestyleData.physicalActivity 0
  let sleepHours := safeFloat lifestyleData.sleepHours 8
  let sims1 : List Simulation ←
    if bmi > 25 then do
      let s ← simulateWeightLoss riskScore bmi
      Except.ok [s]
    else Except.ok []
  let sims2 ←
    if physicalActivity < 150 then do
      let s ← simulateIncreasedActivity riskScore physicalActivity
      Except.ok (sims1 ++ [s])
    else Except.ok sims1
  let sims3 ←
    if sleepHours < 7 then do
      let s ← simulateBetterSleep riskScore sleepHours
      Except.ok (sims2 ++ [s])
    else Except.ok sims2
  let sDiet ← simulateHealthyDiet riskScore
  let sims4 := sims3 ++ [sDiet]
  let sims5 ←
    if lifestyleData.smoking then do
      let s ← simulateQuitSmoking riskScore
      Except.ok (sims4 ++ [s])
    else Except.ok sims4
  let sCombined ← simulateCombinedChanges riskScore
  let sims6 := sims5 ++ [sCombined]
  match pythonMinBy (fun s => s.projectedRisk) sims6 with
  | some best => Except.ok (sims6, best)
  | none => Except.error "min() arg is an empty sequence"

/-- The result dict of `SimulationAgent.execute` (the `processing_time`
field, wall-clock I/O, is omitted). -/
structure SimOutcome where
  status : String
  simulations : List Simulation
  currentRisk : Option ℚ
  bestScenario : Option Simulation
  error : Option String
  deriving DecidableEq

/-- Embeds `SimulationAgent.execute`: run the `try` block; on any exception
return the `status='error'` dict with an empty simulations list. -/
def execute (riskScore : ℚ) (lifestyleData : LifestyleData) : SimOutcome :=
  match executeInner riskScore lifestyleData with
  | Except.ok (sims, best) =>
      { status := "success", simulations := sims, currentRisk := some riskScore,
        bestScenario := some best, error := none }
  | Except.error e =>
      { status := "error", simulations := [], currentRisk := none,
        bestScenario := none, error := some e }

/-! ## Weight optimizer (backend/models/fusion/weight_optimizer.py) -/

/-- The mutable state of a `FusionWeightOptimizer` instance.  `bestLoss` is
`Option ℚ`: `none` models the `float('inf')` sentinel set by `__init__`
(every finite loss compares below it). -/
structure OptState where
  w1 : ℚ
  w2 : ℚ
  learningRate : ℚ
  regularization : ℚ
  bestW1 : ℚ
  bestW2 : ℚ
  bestLoss : Option ℚ
  deriving DecidableEq

/-- `x < bestLoss` where `none` is the `float('inf')` sentinel. -/
def ltBest (x : ℚ) : Option ℚ → Bool
  | none => true
  | some b => decide (x < b)

/-- The parse state of the weight-artifact file: absent, present but
unparseable (`json.load` raises), or parsed with each of the two weight
keys optionally present. -/
inductive ArtifactState where
  | missing
  | malformed
  | parsed (retinalWeight lifestyleWeight : Option ℚ)
  deriving DecidableEq

/-- Embeds `FusionWeightOptimizer.__init__`.  When either initial weight is
`none` (Python `None`), both are re-read from the module-local
`optimal_weights.json` (state `moduleArtifact`) with `.get(..., 0.5)`
defaults, any load exception falling back to `0.5`/`0.5`.  The
normalization `w1 = initial_w1/total` raises `ZeroDivisionError` when
`initial_w1 + initial_w2 = 0`, hence the `Except`.  `best_weights` starts
as the normalized pair and `best_loss` as `float('inf')` (`none`);
`learning_rate` defaults to `0.01` and `regularization` to `0.001` at call
sites. -/
def mkOptimizer (initialW1 initialW2 : Option ℚ) (moduleArtifact : ArtifactState)
    (learningRate : ℚ := 1/100) (regularization : ℚ := 1/1000) :
    Except String OptState :=
  let resolved : ℚ × ℚ :=
    match initialW1, initialW2 with
    | some a, some b => (a, b)
    | _, _ =>
      match moduleArtifact with
      | ArtifactState.missing => (1/2, 1/2)
      | ArtifactState.malformed => (1/2, 1/2)
      | ArtifactState.parsed r l => (r.getD (1/2), l.getD (1/2))
  let total := resolved.1 + resolved.2
  if total = 0 then Except.error "float division by zero"
  else
    let w1 := resolved.1 / total
    let w2 := resolved.2 / total
    Except.ok { w1 := w1, w2 := w2, learningRate := learningRate,
                regularization := regularization, bestW1 := w1, bestW2 := w2,
                bestLoss := none }

/-- Embeds `FusionWeightOptimizer.load_weights`.  The default `filepath`
names the same `optimal_weights.json` the constructor reads, so a single
`ArtifactState` describes both.  Missing file → `cls()` (defaults); a file
that exists is `json.load`ed with no `try` around it, so a malformed file
raises, as does a parsed document lacking the `retinal_weight` or
`lifestyle_weight` key (Python `KeyError` on subscript).  The loaded
`best_loss`/`training_history` fields, irrelevant to the claims, keep their
constructor values here (`best_loss` stays the sentinel unless the document
carried one; we model the common case of a document without `best_loss`). -/
def loadWeights (file : ArtifactState) : Except String OptState :=
  match file with
  | ArtifactState.missing => mkOptimizer none none ArtifactState.missing
  | ArtifactState.malformed => Except.error "json.load failed: invalid JSON"
  | ArtifactState.parsed r l =>
    match r, l with
    | some rw, some lw => mkOptimizer (some rw) (some lw) file
    | _, _ => Except.error "KeyError"

/-- Embeds `EnsembleFusion._load_optimized_weights`, which wraps everything
in `try`/`except` and therefore never raises: it returns the final
`(retinal_weight, lifestyle_weight)` instance fields, starting from the
`__init__` defaults `(0.5, 0.5)`.  On a parsed document the fields are
assigned `.get(..., 0.7)` / `.get(..., 0.3)` before renormalization; a zero
`total` raises inside the `try` and is caught, leaving the already-assigned
un-normalized pair in place. -/
def loadOptimizedWeights (file : ArtifactState) : ℚ × ℚ :=
  match file with
  | ArtifactState.missing => (1/2, 1/2)
  | ArtifactState.malformed => (1/2, 1/2)
  | ArtifactState.parsed r l =>
    let rw := r.getD (7/10)
    let lw := l.getD (3/10)
    let total := rw + lw
    if 1/1000 < |total - 1| then
      if total = 0 then (rw, lw) else (rw / total, lw / total)
    else (rw, lw)

/-- Embeds `FusionWeightOptimizer.compute_loss`.  The source immediately
overwrites its `w2` parameter with `1 - w1`; the parameter is kept for
signature fidelity.  `mean_squared_error` is `(1/n)·Σ(y_true - y_pred)²`;
the claims only exercise equal-length nonempty inputs, on which the
`zipWith` model agrees with numpy broadcasting. -/
def computeLoss (regularization : ℚ) (yTrue retinalPreds lifestylePreds : List ℚ)
    (w1 w2In : ℚ) : ℚ :=
  let _ := w2In
  let w2 := 1 - w1
  let yPred := List.zipWith (fun r l => w1 * r + w2 * l) retinalPreds lifestylePreds
  let mseLoss := (List.zipWith (fun yt yp => (yt - yp) ^ 2) yTrue yPred).sum / (yTrue.length : ℚ)
  let regLoss := regularization * (w1 ^ 2 + w2 ^ 2)
  mseLoss + regLoss

/-- Embeds `FusionWeightOptimizer.compute_gradient`. -/
def computeGradient (regularization : ℚ) (yTrue retinalPreds lifestylePreds : List ℚ)
    (w1 : ℚ) : ℚ :=
  let w2 := 1 - w1
  let yPred := List.zipWith (fun r l => w1 * r + w2 * l) retinalPreds lifestylePreds
  let n : ℚ := yTrue.length
  let predError := List.zipWith (fun yp yt => yp - yt) yPred yTrue
  let predDiff := List.zipWith (fun r l => r - l) retinalPreds lifestylePreds
  let mseGradient := (2 / n) * (List.zipWith (fun e d => e * d) predError predDiff).sum
  let regGradient := 2 * regularization * (w1 - w2)
  mseGradient + regGradient

/-- One iteration of the `train_batch` epoch loop: loss at the current
weights, gradient, descent step, `np.clip(w1, 0.01, 0.99)`, `w2 = 1 - w1`,
then the best-weights update — which, as in the source, stores the loss
computed *before* the step next to the weights obtained *after* it.  (The
`training_history` append holds the same values and is not modelled.) -/
def trainStep (yTrue retinalPreds lifestylePreds : List ℚ) (st : OptState) : OptState :=
  let currentLoss := computeLoss st.regularization yTrue retinalPreds lifestylePreds st.w1 st.w2
  let gradient := computeGradient st.regularization yTrue retinalPreds lifestylePreds st.w1
  let w1Stepped := st.w1 - st.learningRate * gradient
  let w1New := min (max w1Stepped (1/100)) (99/100)
  let w2New := 1 - w1New
  if ltBest currentLoss st.bestLoss then
    { st with w1 := w1New, w2 := w2New,
              bestLoss := some currentLoss, bestW1 := w1New, bestW2 := w2New }
  else
    { st with w1 := w1New, w2 := w2New }

/-- `epochs` iterations of the `train_batch` loop. -/
def runEpochs (yTrue retinalPreds lifestylePreds : List ℚ) :
    ℕ → OptState → OptState
  | 0, st => st
  | n + 1, st => runEpochs yTrue retinalPreds lifestylePreds n
      (trainStep yTrue retinalPreds lifestylePreds st)

/-- The dict returned by `train_batch` (the `history` tail of per-epoch
log records is not modelled). -/
structure TrainResult where
  bestWeights : ℚ × ℚ
  bestLoss : Option ℚ
  finalWeights : ℚ × ℚ
  deriving DecidableEq

/-- Embeds `FusionWeightOptimizer.train_batch`: run the epoch loop, then
`self.w1, self.w2 = self.best_weights`, and return best/final weights and
best loss.  Returns the result dict together with the post-call state. -/
def trainBatch (yTrue retinalPreds lifestylePreds : List ℚ) (epochs : ℕ)
    (st : OptState) : TrainResult × OptState :=
  let stLoop := runEpochs yTrue retinalPreds lifestylePreds epochs st
  let stFinal := { stLoop with w1 := stLoop.bestW1, w2 := stLoop.bestW2 }
  ({ bestWeights := (stFinal.bestW1, stFinal.bestW2), bestLoss := stFinal.bestLoss,
     finalWeights := (stFinal.w1, stFinal.w2) }, stFinal)

/-- The clamped-step invariant on the live weights. -/
def wInv (st : OptState) : Prop :=
  1/100 ≤ st.w1 ∧ st.w1 ≤ 99/100 ∧ st.w2 = 1 - st.w1

/-- The clamped-step invariant on the tracked best weights. -/
def bestInv (st : OptState) : Prop :=
  1/100 ≤ st.bestW1 ∧ st.bestW1 ≤ 99/100 ∧ st.bestW2 = 1 - st.bestW1

/-- The post-update clamped weight of one `train_batch` epoch (the value
`trainStep` assigns to `w1`). -/
def steppedW1 (y r l : List ℚ) (S : OptState) : ℚ :=
  min (max (S.w1 - S.learningRate * computeGradient S.regularization y r l S.w1)
    (1/100)) (99/100)

/-! ## Helper lemmas -/

theorem calibrate_nonneg (p : ℚ) : 0 ≤ calibrateProbability p := by
  unfold calibrateProbability
  dsimp only
  split_ifs with h1 h2
  · norm_num
  · norm_num
  · exact le_min (le_max_right _ _) (by norm_num)

theorem calibrate_le_one (p : ℚ) : calibrateProbability p ≤ 1 := by
  unfold calibrateProbability
  dsimp only
  split_ifs with h1 h2
  · norm_num
  · norm_num
  · exact min_le_right _ _

theorem calibrate_mid (p : ℚ) (h1 : 2/5 < p) (h2 : p < 1) :
    calibrateProbability p = (p - 2/5) / (1 - 2/5) := by
  unfold calibrateProbability
  dsimp only
  rw [if_neg (by linarith), if_neg (by simp only [ge_iff_le, not_le]; linarith)]
  have hnum : 0 ≤ (p - 2/5) / (1 - 2/5) := by
    apply div_nonneg <;> linarith
  have hle : (p - 2/5) / (1 - 2/5) ≤ 1 := by
    rw [div_le_one (by norm_num)]; linarith
  rw [max_eq_left hnum, min_eq_left hle]

/-! ## Claim theorems -/

/-- C5: the calibration function is monotone non-decreasing on `[0,1]`;
inputs `≤ 0.4` map to exactly `0`, inputs `≥ 1` map to exactly `1`, strictly
in-between inputs map via `(raw - 0.4)/(1.0 - 0.4)`, and the four quoted
boundary values hold. -/
theorem calibrate_monotone_boundaries :
    (∀ a b : ℚ, 0 ≤ a → b ≤ 1 → a < b →
      calibrateProbability a ≤ calibrateProbability b) ∧
    (∀ p : ℚ, p ≤ 2/5 → calibrateProbability p = 0) ∧
    (∀ p : ℚ, 1 ≤ p → calibrateProbability p = 1) ∧
    (∀ p : ℚ, 2/5 < p → p < 1 →
      calibrateProbability p = (p - 2/5) / (1 - 2/5)) ∧
    calibrateProbability (1/5) = 0 ∧ calibrateProbability (2/5) = 0 ∧
    calibrateProbability (7/10) = 1/2 ∧ calibrateProbability 1 = 1 := by
  have hlow : ∀ p : ℚ, p ≤ 2/5 → calibrateProbability p = 0 := by
    intro p hp
    unfold calibrateProbability
    dsimp only
    rw [if_pos hp]
  have hhigh : ∀ p : ℚ, 1 ≤ p → calibrateProbability p = 1 := by
    intro p hp
    unfold calibrateProbability
    dsimp only
    rcases lt_or_ge (2/5 : ℚ) p with h | h
    · rw [if_neg (by linarith), if_pos (by exact hp)]
    · linarith
  refine ⟨?_, hlow, hhigh, calibrate_mid, hlow (1/5) (by norm_num),
    hlow (2/5) (le_refl _), by rw [calibrate_mid (7/10) (by norm_num) (by norm_num)]; norm_num,
    hhigh 1 (le_refl _)⟩
  intro a b _ hb1 hab
  rcases le_or_lt a (2/5) with ha | ha
  · rw [hlow a ha]; exact calibrate_nonneg b
  · rcases le_or_lt 1 b with hb | hb
    · rw [hhigh b hb]; exact calibrate_le_one a
    · rw [calibrate_mid a ha (lt_trans hab hb), calibrate_mid b (lt_trans ha hab) hb]
      apply div_le_div_of_nonneg_right ?_ (by norm_num)
      linarith

/-- C5 witness: the monotonicity and mapping clauses instantiated at
concrete points. -/
theorem calibrate_monotone_boundaries_witness :
    calibrateProbability (1/2) ≤ calibrateProbability (3/4) ∧
    calibrateProbability (3/10) = 0 ∧
    calibrateProbability (6/5) = 1 ∧
    calibrateProbability (1/2) = (1/2 - 2/5) / (1 - 2/5) := by
  obtain ⟨hmono, hlow, hhigh, hmid, _⟩ := calibrate_monotone_boundaries
  exact ⟨hmono (1/2) (3/4) (by norm_num) (by norm_num) (by norm_num),
    hlow (3/10) (by norm_num), hhigh (6/5) (by norm_num),
    hmid (1/2) (by norm_num) (by norm_num)⟩

/-- C6: the risk-level mapping realizes the half-open intervals
`[0,0.3)→low`, `[0.3,0.5)→moderate`, `[0.5,0.7)→high`, `[0.7,1]→very_high`,
and `assess` at fused scores `0.3` / `0.29999` reports `moderate` / `low`
for every findings/factors input. -/
theorem risk_level_thresholds :
    (∀ s : ℚ, 0 ≤ s → s < 3/10 → getRiskLevel s = "low") ∧
    (∀ s : ℚ, 3/10 ≤ s → s < 1/2 → getRiskLevel s = "moderate") ∧
    (∀ s : ℚ, 1/2 ≤ s → s < 7/10 → getRiskLevel s = "high") ∧
    (∀ s : ℚ, 7/10 ≤ s → s ≤ 1 → getRiskLevel s = "very_high") ∧
    (∀ (rf : RetFindings) (lf : List LifFactor),
      (assess (3/10) rf lf).riskLevel = "moderate" ∧
      (assess (29999/100000) rf lf).riskLevel = "low") := by
  have h1 : ∀ s : ℚ, s < 3/10 → getRiskLevel s = "low" := by
    intro s hs; unfold getRiskLevel; rw [if_pos hs]
  have h2 : ∀ s : ℚ, 3/10 ≤ s → s < 1/2 → getRiskLevel s = "moderate" := by
    intro s hs1 hs2; unfold getRiskLevel
    rw [if_neg (by linarith), if_pos hs2]
  refine ⟨fun s _ hs => h1 s hs, h2, ?_, ?_, ?_⟩
  · intro s hs1 hs2; unfold getRiskLevel
    rw [if_neg (by linarith), if_neg (by linarith), if_pos hs2]
  · intro s hs1 _; unfold getRiskLevel
    rw [if_neg (by linarith), if_neg (by linarith), if_neg (by linarith)]
  · intro rf lf
    constructor
    · show getRiskLevel (3/10) = "moderate"
      exact h2 (3/10) (le_refl _) (by norm_num)
    · show getRiskLevel (29999/100000) = "low"
      exact h1 (29999/100000) (by norm_num)

/-- C6 witness: the interval clauses instantiated at concrete scores and a
concrete assessment input. -/
theorem risk_level_thresholds_witness :
    getRiskLevel (1/10) = "low" ∧ getRiskLevel (2/5) = "moderate" ∧
    getRiskLevel (3/5) = "high" ∧ getRiskLevel (9/10) = "very_high" ∧
    (assess (3/10) ⟨false, 0⟩ []).riskLevel = "moderate" ∧
    (assess (29999/100000) ⟨false, 0⟩ []).riskLevel = "low" := by
  obtain ⟨h1, h2, h3, h4, h5⟩ := risk_level_thresholds
  obtain ⟨ha, hb⟩ := h5 ⟨false, 0⟩ []
  exact ⟨h1 (1/10) (by norm_num) (by norm_num), h2 (2/5) (by norm_num) (by norm_num),
    h3 (3/5) (by norm_num) (by norm_num), h4 (9/10) (by norm_num) (by norm_num), ha, hb⟩

/-- C4: with optimized weights active and method `weighted_average`, `fuse`
returns the optimized-weight combination clamped to `[0,1]` independently of
both confidence arguments (and of the square-root used only by the
`geometric_mean` branch); with weights `{0.7, 0.3}`, risks `0.8` / `0.4`,
the result is `0.68` for every confidence pair. -/
theorem fuse_weighted_average_optimized :
    (∀ (sqrtFn : ℚ → ℚ) (rw lw rr lr rc lc : ℚ),
      fuse sqrtFn "weighted_average" true rw lw rr lr rc lc =
        min (max (rw * rr + lw * lr) 0) 1) ∧
    (∀ (sqrtFn : ℚ → ℚ) (rc lc : ℚ),
      fuse sqrtFn "weighted_average" true (7/10) (3/10) (8/10) (4/10) rc lc = 17/25) := by
  have h : ∀ (sqrtFn : ℚ → ℚ) (rw lw rr lr rc lc : ℚ),
      fuse sqrtFn "weighted_average" true rw lw rr lr rc lc =
        min (max (rw * rr + lw * lr) 0) 1 := by
    intro sqrtFn rw lw rr lr rc lc
    unfold fuse weightedAverage
    norm_num
  refine ⟨h, fun sqrtFn rc lc => ?_⟩
  rw [h]
  norm_num

/-- C1: the `risk_reduction_percent` computation has no zero guard — at
`current_risk = 0` the unconditionally-included healthy-diet and combined
simulations raise `ZeroDivisionError` instead of reporting 0%, and
`execute` degrades to its `status='error'` dict with no simulations. -/
theorem zero_risk_division_crashes :
    simulateHealthyDiet 0 = Except.error "float division by zero" ∧
    simulateCombinedChanges 0 = Except.error "float division by zero" ∧
    (execute 0 ⟨FieldVal.missing, FieldVal.missing, FieldVal.missing, false⟩).status
      = "error" ∧
    (execute 0 ⟨FieldVal.missing, FieldVal.missing, FieldVal.missing, false⟩).simulations
      = [] := by
  refine ⟨rfl, rfl, rfl, rfl⟩

/-- C2 counterexample: a weight-artifact file that exists but holds invalid
JSON makes `FusionWeightOptimizer.load_weights` propagate the parse error
instead of falling back to default weights. -/
theorem load_weights_malformed_raises :
    loadWeights ArtifactState.malformed =
      Except.error "json.load failed: invalid JSON" := rfl

/-- C2 amended: `load_weights` falls back to the default equal weights
`{0.5, 0.5}` only when the artifact file is missing; an existing but
malformed file (unparseable JSON, or JSON lacking a weight key) raises.
`EnsembleFusion._load_optimized_weights`, in contrast, never raises and
keeps the default `{0.5, 0.5}` on missing or unparseable files. -/
theorem load_weights_fallback_only_when_missing :
    (∃ st : OptState, loadWeights ArtifactState.missing = Except.ok st ∧
      st.w1 = 1/2 ∧ st.w2 = 1/2 ∧ st.bestLoss = none) ∧
    loadWeights ArtifactState.malformed =
      Except.error "json.load failed: invalid JSON" ∧
    (∀ l : Option ℚ, loadWeights (ArtifactState.parsed none l) =
      Except.error "KeyError") ∧
    (∀ r : Option ℚ, loadWeights (ArtifactState.parsed r none) =
      Except.error "KeyError") ∧
    loadOptimizedWeights ArtifactState.missing = (1/2, 1/2) ∧
    loadOptimizedWeights ArtifactState.malformed = (1/2, 1/2) := by
  refine ⟨⟨⟨1/2, 1/2, 1/100, 1/1000, 1/2, 1/2, none⟩, ?_, rfl, rfl, rfl⟩,
    rfl, ?_, ?_, rfl, rfl⟩
  · show mkOptimizer none none ArtifactState.missing = _
    dsimp only [mkOptimizer]
    norm_num
  · intro l; cases l <;> rfl
  · intro r; cases r <;> rfl

theorem zipWith_sum_range (f : ℚ → ℚ → ℚ) :
    ∀ (a b : List ℚ), a.length = b.length →
      (List.zipWith f a b).sum =
        ∑ i ∈ Finset.range a.length, f (a.getD i 0) (b.getD i 0) := by
  intro a
  induction a with
  | nil => intro b _; simp
  | cons x xs ih =>
    intro b h
    cases b with
    | nil => simp at h
    | cons y ys =>
      have h' : xs.length = ys.length := by simpa using h
      simp only [List.zipWith_cons_cons, List.sum_cons, List.length_cons]
      rw [Finset.sum_range_succ']
      simp only [List.getD_cons_succ, List.getD_cons_zero]
      rw [ih ys h']
      ring

/-- C8: `compute_gradient` returns exactly the closed-form gradient
`(2/n)·Σ[(y_pred - y_true)·(retinal - lifestyle)] + 2λ·(w1 - (1-w1))`
with `y_pred = w1·retinal + (1-w1)·lifestyle`, for equal-length nonempty
inputs. -/
theorem compute_gradient_closed_form :
    ∀ (reg w1 : ℚ) (yTrue retinalPreds lifestylePreds : List ℚ),
      yTrue.length = retinalPreds.length →
      yTrue.length = lifestylePreds.length →
      1 ≤ yTrue.length →
      computeGradient reg yTrue retinalPreds lifestylePreds w1 =
        (2 / (yTrue.length : ℚ)) *
          (∑ i ∈ Finset.range yTrue.length,
            ((w1 * retinalPreds.getD i 0 + (1 - w1) * lifestylePreds.getD i 0
                - yTrue.getD i 0) *
             (retinalPreds.getD i 0 - lifestylePreds.getD i 0))) +
        2 * reg * (w1 - (1 - w1)) := by
  intro reg w1 yTrue retinalPreds lifestylePreds hr hl _
  unfold computeGradient
  dsimp only
  have hyPred : (List.zipWith (fun r l => w1 * r + (1 - w1) * l)
      retinalPreds lifestylePreds).length = yTrue.length := by
    simp [List.length_zipWith, ← hr, ← hl]
  have hErr : (List.zipWith (fun yp yt => yp - yt)
      (List.zipWith (fun r l => w1 * r + (1 - w1) * l) retinalPreds lifestylePreds)
      yTrue).length = yTrue.length := by
    simp [List.length_zipWith, hyPred]
  have hDiff : (List.zipWith (fun r l => r - l) retinalPreds lifestylePreds).length
      = yTrue.length := by
    simp [List.length_zipWith, ← hr, ← hl]
  rw [zipWith_sum_range _ _ _ (by rw [hErr, hDiff]), hErr]
  congr 1
  congr 1
  apply Finset.sum_congr rfl
  intro i hi
  have hin : i < yTrue.length := Finset.mem_range.mp hi
  have hiR : i < retinalPreds.length := hr ▸ hin
  have hiL : i < lifestylePreds.length := hl ▸ hin
  have hiP : i < (List.zipWith (fun r l => w1 * r + (1 - w1) * l)
      retinalPreds lifestylePreds).length := hyPred ▸ hin
  have hiE : i < (List.zipWith (fun yp yt => yp - yt)
      (List.zipWith (fun r l => w1 * r + (1 - w1) * l) retinalPreds lifestylePreds)
      yTrue).length := hErr ▸ hin
  have hiD : i < (List.zipWith (fun r l => r - l) retinalPreds lifestylePreds).length :=
    hDiff ▸ hin
  rw [List.getD_eq_getElem _ _ hiE, List.getD_eq_getElem _ _ hiD,
    List.getElem_zipWith, List.getElem_zipWith, List.getElem_zipWith,
    List.getD_eq_getElem _ _ hin, List.getD_eq_getElem _ _ hiR,
    List.getD_eq_getElem _ _ hiL]

/-- C8 witness: the gradient formula instantiated on the one-example batch
`y_true=[0]`, `retinal=[1]`, `lifestyle=[0]` with `λ=0.001`, `w1=0.5`. -/
theorem compute_gradient_closed_form_witness :
    ([(0:ℚ)] : List ℚ).length = ([(1:ℚ)] : List ℚ).length ∧
    ([(0:ℚ)] : List ℚ).length = ([(0:ℚ)] : List ℚ).length ∧
    1 ≤ ([(0:ℚ)] : List ℚ).length ∧
    computeGradient (1/1000) [(0:ℚ)] [(1:ℚ)] [(0:ℚ)] (1/2) =
      (2 / (([(0:ℚ)] : List ℚ).length : ℚ)) *
        (∑ i ∈ Finset.range ([(0:ℚ)] : List ℚ).length,
          ((1/2 * ([(1:ℚ)] : List ℚ).getD i 0
              + (1 - 1/2) * ([(0:ℚ)] : List ℚ).getD i 0
              - ([(0:ℚ)] : List ℚ).getD i 0) *
           (([(1:ℚ)] : List ℚ).getD i 0 - ([(0:ℚ)] : List ℚ).getD i 0))) +
      2 * (1/1000) * (1/2 - (1 - 1/2)) :=
  ⟨rfl, rfl, by norm_num,
    compute_gradient_closed_form (1/1000) (1/2) [0] [1] [0] rfl rfl (by norm_num)⟩

theorem runEpochs_succ_right (y r l : List ℚ) :
    ∀ (n : ℕ) (st : OptState),
      runEpochs y r l (n + 1) st = trainStep y r l (runEpochs y r l n st) := by
  intro n
  induction n with
  | zero => intro st; rfl
  | succ m ih =>
    intro st
    show runEpochs y r l (m + 1) (trainStep y r l st) = _
    rw [ih (trainStep y r l st)]
    rfl

theorem trainStep_hyper (y r l : List ℚ) (st : OptState) :
    (trainStep y r l st).learningRate = st.learningRate ∧
    (trainStep y r l st).regularization = st.regularization := by
  unfold trainStep
  dsimp only
  split <;> exact ⟨rfl, rfl⟩

theorem runEpochs_hyper (y r l : List ℚ) :
    ∀ (n : ℕ) (st : OptState),
      (runEpochs y r l n st).learningRate = st.learningRate ∧
      (runEpochs y r l n st).regularization = st.regularization := by
  intro n
  induction n with
  | zero => intro st; exact ⟨rfl, rfl⟩
  | succ m ih =>
    intro st
    rw [runEpochs_succ_right]
    rw [(trainStep_hyper y r l _).1, (trainStep_hyper y r l _).2]
    exact ih st

theorem trainStep_wInv (y r l : List ℚ) (st : OptState) :
    wInv (trainStep y r l st) := by
  unfold trainStep wInv
  dsimp only
  have h1 : (1:ℚ)/100 ≤ min (max (st.w1 - st.learningRate *
      computeGradient st.regularization y r l st.w1) (1/100)) (99/100) :=
    le_min (le_max_right _ _) (by norm_num)
  have h2 : min (max (st.w1 - st.learningRate *
      computeGradient st.regularization y r l st.w1) (1/100)) (99/100) ≤ 99/100 :=
    min_le_right _ _
  split <;> exact ⟨h1, h2, rfl⟩

theorem trainStep_bestInv (y r l : List ℚ) (st : OptState)
    (h : st.bestLoss = none ∨ bestInv st) : bestInv (trainStep y r l st) := by
  unfold trainStep bestInv
  dsimp only
  split
  case isTrue =>
    exact ⟨le_min (le_max_right _ _) (by norm_num), min_le_right _ _, rfl⟩
  case isFalse hcond =>
    rcases h with hnone | hbest
    · rw [hnone] at hcond
      exact absurd rfl hcond
    · exact hbest

theorem runEpochs_bestInv (y r l : List ℚ) :
    ∀ (n : ℕ) (st : OptState), st.bestLoss = none ∨ bestInv st →
      1 ≤ n → bestInv (runEpochs y r l n st) := by
  intro n
  induction n with
  | zero => intro st _ h1; exact absurd h1 (by norm_num)
  | succ m ih =>
    intro st h _
    rw [runEpochs_succ_right]
    rcases Nat.eq_zero_or_pos m with hm | hm
    · subst hm
      exact trainStep_bestInv y r l st h
    · exact trainStep_bestInv y r l _ (Or.inr (ih st h hm))

/-- C7: after every epoch of `train_batch` the live weights satisfy
`w1 ∈ [0.01, 0.99]` and `w2 = 1 - w1` exactly, and (provided the incoming
best-tracking state is coherent — the `float('inf')` sentinel, or a best
pair already satisfying the invariant, which covers every state the class
itself constructs) the weights `train_batch` returns satisfy it too, the
returned `final_weights` being the returned `best_weights`. -/
theorem train_batch_weight_invariant (y r l : List ℚ) (st : OptState) (epochs : ℕ)
    (hep : 1 ≤ epochs) (hst : st.bestLoss = none ∨ bestInv st) :
    (∀ k, 1 ≤ k → k ≤ epochs → wInv (runEpochs y r l k st)) ∧
    (1/100 ≤ (trainBatch y r l epochs st).1.bestWeights.1 ∧
      (trainBatch y r l epochs st).1.bestWeights.1 ≤ 99/100 ∧
      (trainBatch y r l epochs st).1.bestWeights.2 =
        1 - (trainBatch y r l epochs st).1.bestWeights.1) ∧
    (trainBatch y r l epochs st).1.finalWeights =
      (trainBatch y r l epochs st).1.bestWeights := by
  refine ⟨?_, ?_, rfl⟩
  · intro k hk _
    obtain ⟨m, rfl⟩ : ∃ m, k = m + 1 := ⟨k - 1, (Nat.succ_pred_eq_of_pos hk).symm⟩
    rw [runEpochs_succ_right]
    exact trainStep_wInv y r l _
  · have hb := runEpochs_bestInv y r l epochs st hst hep
    unfold bestInv at hb
    exact hb

/-- C7 witness: the invariant instantiated on the one-example batch with a
freshly initialized optimizer and one epoch. -/
theorem train_batch_weight_invariant_witness :
    (1:ℕ) ≤ 1 ∧
    ((⟨1/2, 1/2, 1/100, 1/1000, 1/2, 1/2, none⟩ : OptState).bestLoss = none ∨
      bestInv ⟨1/2, 1/2, 1/100, 1/1000, 1/2, 1/2, none⟩) ∧
    ((∀ k, 1 ≤ k → k ≤ 1 →
        wInv (runEpochs [(0:ℚ)] [(1:ℚ)] [(0:ℚ)] k
          ⟨1/2, 1/2, 1/100, 1/1000, 1/2, 1/2, none⟩)) ∧
      (1/100 ≤ (trainBatch [(0:ℚ)] [(1:ℚ)] [(0:ℚ)] 1
          ⟨1/2, 1/2, 1/100, 1/1000, 1/2, 1/2, none⟩).1.bestWeights.1 ∧
        (trainBatch [(0:ℚ)] [(1:ℚ)] [(0:ℚ)] 1
          ⟨1/2, 1/2, 1/100, 1/1000, 1/2, 1/2, none⟩).1.bestWeights.1 ≤ 99/100 ∧
        (trainBatch [(0:ℚ)] [(1:ℚ)] [(0:ℚ)] 1
          ⟨1/2, 1/2, 1/100, 1/1000, 1/2, 1/2, none⟩).1.bestWeights.2 =
          1 - (trainBatch [(0:ℚ)] [(1:ℚ)] [(0:ℚ)] 1
            ⟨1/2, 1/2, 1/100, 1/1000, 1/2, 1/2, none⟩).1.bestWeights.1) ∧
      (trainBatch [(0:ℚ)] [(1:ℚ)] [(0:ℚ)] 1
          ⟨1/2, 1/2, 1/100, 1/1000, 1/2, 1/2, none⟩).1.finalWeights =
        (trainBatch [(0:ℚ)] [(1:ℚ)] [(0:ℚ)] 1
          ⟨1/2, 1/2, 1/100, 1/1000, 1/2, 1/2, none⟩).1.bestWeights) :=
  ⟨le_refl 1, Or.inl rfl,
    train_batch_weight_invariant [0] [1] [0] _ 1 (le_refl 1) (Or.inl rfl)⟩

theorem trainStep_w1 (y r l : List ℚ) (S : OptState) :
    (trainStep y r l S).w1 = steppedW1 y r l S := by
  unfold trainStep steppedW1
  dsimp only
  split <;> rfl

theorem trainStep_w2 (y r l : List ℚ) (S : OptState) :
    (trainStep y r l S).w2 = 1 - steppedW1 y r l S := by
  unfold trainStep steppedW1
  dsimp only
  split <;> rfl

theorem trainStep_best_lt (y r l : List ℚ) (S : OptState)
    (h : ltBest (computeLoss S.regularization y r l S.w1 S.w2) S.bestLoss = true) :
    (trainStep y r l S).bestLoss
        = some (computeLoss S.regularization y r l S.w1 S.w2) ∧
    (trainStep y r l S).bestW1 = steppedW1 y r l S ∧
    (trainStep y r l S).bestW2 = 1 - steppedW1 y r l S := by
  unfold trainStep steppedW1
  dsimp only
  rw [if_pos h]
  exact ⟨rfl, rfl, rfl⟩

theorem trainStep_best_ge (y r l : List ℚ) (S : OptState)
    (h : ¬ ltBest (computeLoss S.regularization y r l S.w1 S.w2) S.bestLoss = true) :
    (trainStep y r l S).bestLoss = S.bestLoss ∧
    (trainStep y r l S).bestW1 = S.bestW1 ∧
    (trainStep y r l S).bestW2 = S.bestW2 := by
  unfold trainStep
  dsimp only
  rw [if_neg h]
  exact ⟨rfl, rfl, rfl⟩

theorem runEpochs_best_track (y r l : List ℚ) (st : OptState)
    (h0 : st.bestLoss = none) :
    ∀ n, 1 ≤ n →
      ∃ k, k < n ∧
        (runEpochs y r l n st).bestLoss =
          some (computeLoss st.regularization y r l
            (runEpochs y r l k st).w1 (runEpochs y r l k st).w2) ∧
        (runEpochs y r l n st).bestW1 = (runEpochs y r l (k+1) st).w1 ∧
        (runEpochs y r l n st).bestW2 = (runEpochs y r l (k+1) st).w2 ∧
        (∀ j, j < n →
          computeLoss st.regularization y r l
              (runEpochs y r l k st).w1 (runEpochs y r l k st).w2 ≤
            computeLoss st.regularization y r l
              (runEpochs y r l j st).w1 (runEpochs y r l j st).w2) ∧
        (∀ j, j < k →
          computeLoss st.regularization y r l
              (runEpochs y r l k st).w1 (runEpochs y r l k st).w2 <
            computeLoss st.regularization y r l
              (runEpochs y r l j st).w1 (runEpochs y r l j st).w2) := by
  intro n
  induction n with
  | zero => intro h1; exact absurd h1 (by norm_num)
  | succ m ih =>
    intro _
    rcases Nat.eq_zero_or_pos m with hm | hm
    · subst hm
      refine ⟨0, Nat.zero_lt_one, ?_⟩
      rw [runEpochs_succ_right]
      have hS : runEpochs y r l 0 st = st := rfl
      rw [hS]
      have hlt : ltBest (computeLoss st.regularization y r l st.w1 st.w2)
          st.bestLoss = true := by rw [h0]; rfl
      obtain ⟨hb, hw1, hw2⟩ := trainStep_best_lt y r l st hlt
      refine ⟨hb, ?_, ?_, ?_, ?_⟩
      · rw [hw1, trainStep_w1]
      · rw [hw2, trainStep_w2]
      · intro j hj
        interval_cases j
        exact le_refl _
      · intro j hj
        exact absurd hj (Nat.not_lt_zero j)
    · obtain ⟨k, hk, hbl, hbw1, hbw2, hle, hstrict⟩ := ih hm
      set S := runEpochs y r l m st with hSdef
      have hreg : S.regularization = st.regularization := (runEpochs_hyper y r l m st).2
      have hcur : computeLoss S.regularization y r l S.w1 S.w2 =
          computeLoss st.regularization y r l
            (runEpochs y r l m st).w1 (runEpochs y r l m st).w2 := by
        rw [hreg]
      by_cases hdec : computeLoss S.regularization y r l S.w1 S.w2 <
          computeLoss st.regularization y r l
            (runEpochs y r l k st).w1 (runEpochs y r l k st).w2
      · have hlt : ltBest (computeLoss S.regularization y r l S.w1 S.w2)
            S.bestLoss = true := by
          rw [hbl]
          unfold ltBest
          exact decide_eq_true hdec
        obtain ⟨hb, hw1, hw2⟩ := trainStep_best_lt y r l S hlt
        refine ⟨m, Nat.lt_succ_self m, ?_, ?_, ?_, ?_, ?_⟩
        · rw [runEpochs_succ_right, hb, hcur]
        · rw [runEpochs_succ_right, hw1, trainStep_w1]
        · rw [runEpochs_succ_right, hw2, trainStep_w2]
        · intro j hj
          rw [← hcur]
          rcases Nat.lt_succ_iff_lt_or_eq.mp hj with hj' | hj'
          · exact le_of_lt (lt_of_lt_of_le (hcur ▸ hdec) (hle j hj'))
          · subst hj'
            rw [hcur]
        · intro j hj
          rw [← hcur]
          exact lt_of_lt_of_le (hcur ▸ hdec) (hle j hj)
      · have hge : ¬ ltBest (computeLoss S.regularization y r l S.w1 S.w2)
            S.bestLoss = true := by
          rw [hbl]
          unfold ltBest
          simp only [decide_eq_true_eq]
          exact hdec
        obtain ⟨hb, hw1, hw2⟩ := trainStep_best_ge y r l S hge
        refine ⟨k, Nat.lt_succ_of_lt hk, ?_, ?_, ?_, ?_, ?_⟩
        · rw [runEpochs_succ_right, hb, hbl]
        · rw [runEpochs_succ_right, hw1, hbw1]
        · rw [runEpochs_succ_right, hw2, hbw2]
        · intro j hj
          rcases Nat.lt_succ_iff_lt_or_eq.mp hj with hj' | hj'
          · exact hle j hj'
          · subst hj'
            rw [← hcur]
            exact not_lt.mp hdec
        · exact hstrict

/-- C3 counterexample: one epoch of `train_batch` on the batch
`y_true=[0]`, `retinal=[1]`, `lifestyle=[0]` from a fresh optimizer at
`w1=w2=0.5` (lr `0.01`, λ `0.001`) returns `best_weights = (0.49, 0.51)`
with `best_loss = 0.2505` — but `0.2505` is the loss of `(0.5, 0.5)`, the
only pair evaluated, not the loss of the returned pair, which is
`0.2406002`. -/
theorem train_batch_best_loss_mismatch :
    (trainBatch [(0:ℚ)] [(1:ℚ)] [(0:ℚ)] 1
        ⟨1/2, 1/2, 1/100, 1/1000, 1/2, 1/2, none⟩).1.bestWeights
      = (49/100, 51/100) ∧
    (trainBatch [(0:ℚ)] [(1:ℚ)] [(0:ℚ)] 1
        ⟨1/2, 1/2, 1/100, 1/1000, 1/2, 1/2, none⟩).1.bestLoss
      = some (501/2000) ∧
    computeLoss (1/1000) [(0:ℚ)] [(1:ℚ)] [(0:ℚ)] (49/100) (51/100)
      = 1203001/5000000 ∧
    computeLoss (1/1000) [(0:ℚ)] [(1:ℚ)] [(0:ℚ)] (1/2) (1/2) = 501/2000 ∧
    (501/2000 : ℚ) ≠ 1203001/5000000 := by
  have h : (trainBatch [(0:ℚ)] [(1:ℚ)] [(0:ℚ)] 1
      ⟨1/2, 1/2, 1/100, 1/1000, 1/2, 1/2, none⟩).1 =
      ⟨(49/100, 51/100), some (501/2000), (49/100, 51/100)⟩ := by
    norm_num [trainBatch, runEpochs, trainStep, computeLoss, computeGradient,
      ltBest, min_def, max_def]
  rw [h]
  refine ⟨rfl, rfl, by norm_num [computeLoss], by norm_num [computeLoss], by norm_num⟩

/-- C3 amended: for a fresh-best optimizer (`best_loss` still the
`float('inf')` sentinel) and `epochs ≥ 1`, `train_batch` returns
`best_loss` equal to the minimum of the per-epoch losses — each evaluated
at the weights held at the *start* of its epoch — and `best_weights` equal
to the weights at the *end* of the first epoch attaining that minimum,
i.e. one gradient step after the pair whose loss is reported. -/
theorem train_batch_best_tracking :
    ∀ (y r l : List ℚ) (st : OptState) (epochs : ℕ),
      st.bestLoss = none → 1 ≤ epochs →
      ∃ k, k < epochs ∧
        (trainBatch y r l epochs st).1.bestLoss =
          some (computeLoss st.regularization y r l
            (runEpochs y r l k st).w1 (runEpochs y r l k st).w2) ∧
        (trainBatch y r l epochs st).1.bestWeights =
          ((runEpochs y r l (k+1) st).w1, (runEpochs y r l (k+1) st).w2) ∧
        (∀ j, j < epochs →
          computeLoss st.regularization y r l
              (runEpochs y r l k st).w1 (runEpochs y r l k st).w2 ≤
            computeLoss st.regularization y r l
              (runEpochs y r l j st).w1 (runEpochs y r l j st).w2) ∧
        (∀ j, j < k →
          computeLoss st.regularization y r l
              (runEpochs y r l k st).w1 (runEpochs y r l k st).w2 <
            computeLoss st.regularization y r l
              (runEpochs y r l j st).w1 (runEpochs y r l j st).w2) := by
  intro y r l st epochs h0 hep
  obtain ⟨k, hk, hbl, hbw1, hbw2, hle, hstrict⟩ :=
    runEpochs_best_track y r l st h0 epochs hep
  exact ⟨k, hk, hbl, by rw [Prod.ext_iff]; exact ⟨hbw1, hbw2⟩, hle, hstrict⟩

/-- C3 amended witness: the tracking statement instantiated on the
one-example batch, one epoch, fresh optimizer. -/
theorem train_batch_best_tracking_witness :
    (⟨1/2, 1/2, 1/100, 1/1000, 1/2, 1/2, none⟩ : OptState).bestLoss = none ∧
    (1:ℕ) ≤ 1 ∧
    ∃ k, k < 1 ∧
      (trainBatch [(0:ℚ)] [(1:ℚ)] [(0:ℚ)] 1
          ⟨1/2, 1/2, 1/100, 1/1000, 1/2, 1/2, none⟩).1.bestLoss =
        some (computeLoss
          (⟨1/2, 1/2, 1/100, 1/1000, 1/2, 1/2, none⟩ : OptState).regularization
          [(0:ℚ)] [(1:ℚ)] [(0:ℚ)]
          (runEpochs [(0:ℚ)] [(1:ℚ)] [(0:ℚ)] k
            ⟨1/2, 1/2, 1/100, 1/1000, 1/2, 1/2, none⟩).w1
          (runEpochs [(0:ℚ)] [(1:ℚ)] [(0:ℚ)] k
            ⟨1/2, 1/2, 1/100, 1/1000, 1/2, 1/2, none⟩).w2) ∧
      (trainBatch [(0:ℚ)] [(1:ℚ)] [(0:ℚ)] 1
          ⟨1/2, 1/2, 1/100, 1/1000, 1/2, 1/2, none⟩).1.bestWeights =
        ((runEpochs [(0:ℚ)] [(1:ℚ)] [(0:ℚ)] (k+1)
            ⟨1/2, 1/2, 1/100, 1/1000, 1/2, 1/2, none⟩).w1,
         (runEpochs [(0:ℚ)] [(1:ℚ)] [(0:ℚ)] (k+1)
            ⟨1/2, 1/2, 1/100, 1/1000, 1/2, 1/2, none⟩).w2) ∧
      (∀ j, j < 1 →
        computeLoss
            (⟨1/2, 1/2, 1/100, 1/1000, 1/2, 1/2, none⟩ : OptState).regularization
            [(0:ℚ)] [(1:ℚ)] [(0:ℚ)]
            (runEpochs [(0:ℚ)] [(1:ℚ)] [(0:ℚ)] k
              ⟨1/2, 1/2, 1/100, 1/1000, 1/2, 1/2, none⟩).w1
            (runEpochs [(0:ℚ)] [(1:ℚ)] [(0:ℚ)] k
              ⟨1/2, 1/2, 1/100, 1/1000, 1/2, 1/2, none⟩).w2 ≤
          computeLoss
            (⟨1/2, 1/2, 1/100, 1/1000, 1/2, 1/2, none⟩ : OptState).regularization
            [(0:ℚ)] [(1:ℚ)] [(0:ℚ)]
            (runEpochs [(0:ℚ)] [(1:ℚ)] [(0:ℚ)] j
              ⟨1/2, 1/2, 1/100, 1/1000, 1/2, 1/2, none⟩).w1
            (runEpochs [(0:ℚ)] [(1:ℚ)] [(0:ℚ)] j
              ⟨1/2, 1/2, 1/100, 1/1000, 1/2, 1/2, none⟩).w2) ∧
      (∀ j, j < k →
        computeLoss
            (⟨1/2, 1/2, 1/100, 1/1000, 1/2, 1/2, none⟩ : OptState).regularization
            [(0:ℚ)] [(1:ℚ)] [(0:ℚ)]
            (runEpochs [(0:ℚ)] [(1:ℚ)] [(0:ℚ)] k
              ⟨1/2, 1/2, 1/100, 1/1000, 1/2, 1/2, none⟩).w1
            (runEpochs [(0:ℚ)] [(1:ℚ)] [(0:ℚ)] k
              ⟨1/2, 1/2, 1/100, 1/1000, 1/2, 1/2, none⟩).w2 <
          computeLoss
            (⟨1/2, 1/2, 1/100, 1/1000, 1/2, 1/2, none⟩ : OptState).regularization
            [(0:ℚ)] [(1:ℚ)] [(0:ℚ)]
            (runEpochs [(0:ℚ)] [(1:ℚ)] [(0:ℚ)] j
              ⟨1/2, 1/2, 1/100, 1/1000, 1/2, 1/2, none⟩).w1
            (runEpochs [(0:ℚ)] [(1:ℚ)] [(0:ℚ)] j
              ⟨1/2, 1/2, 1/100, 1/1000, 1/2, 1/2, none⟩).w2) :=
  ⟨rfl, le_refl 1,
    train_batch_best_tracking [0] [1] [0]
      ⟨1/2, 1/2, 1/100, 1/1000, 1/2, 1/2, none⟩ 1 rfl (le_refl 1)⟩

theorem simulateWeightLoss_ok (risk bmi : ℚ) (h : risk ≠ 0) :
    simulateWeightLoss risk bmi = Except.ok
      ⟨"Weight Loss", risk, max (risk - 15/100) 0,
        (risk - max (risk - 15/100) 0) / risk * 100,
        "3-6 months", "moderate", "high"⟩ := by
  simp [simulateWeightLoss, divPct, h, Bind.bind, Except.bind]

theorem simulateIncreasedActivity_ok (risk act : ℚ) (h : risk ≠ 0) :
    simulateIncreasedActivity risk act = Except.ok
      ⟨"Increased Physical Activity", risk, max (risk - 10/100) 0,
        (risk - max (risk - 10/100) 0) / risk * 100,
        "2-3 months", "moderate", "moderate-high"⟩ := by
  simp [simulateIncreasedActivity, divPct, h, Bind.bind, Except.bind]

theorem simulateBetterSleep_ok (risk slp : ℚ) (h : risk ≠ 0) :
    simulateBetterSleep risk slp = Except.ok
      ⟨"Improved Sleep Quality", risk, max (risk - 8/100) 0,
        (risk - max (risk - 8/100) 0) / risk * 100,
        "1-2 months", "easy-moderate", "moderate"⟩ := by
  simp [simulateBetterSleep, divPct, h, Bind.bind, Except.bind]

theorem simulateHealthyDiet_ok (risk : ℚ) (h : risk ≠ 0) :
    simulateHealthyDiet risk = Except.ok
      ⟨"Healthy Diet Adoption", risk, max (risk - 12/100) 0,
        (risk - max (risk - 12/100) 0) / risk * 100,
        "3-4 months", "moderate", "high"⟩ := by
  simp [simulateHealthyDiet, divPct, h, Bind.bind, Except.bind]

theorem simulateQuitSmoking_ok (risk : ℚ) (h : risk ≠ 0) :
    simulateQuitSmoking risk = Except.ok
      ⟨"Smoking Cessation", risk, max (risk - 18/100) 0,
        (risk - max (risk - 18/100) 0) / risk * 100,
        "6-12 months", "hard", "very high"⟩ := by
  simp [simulateQuitSmoking, divPct, h, Bind.bind, Except.bind]

theorem simulateCombinedChanges_ok (risk : ℚ) (h : risk ≠ 0) :
    simulateCombinedChanges risk = Except.ok
      ⟨"Comprehensive Lifestyle Change", risk, max (risk - 35/100) 0,
        (risk - max (risk - 35/100) 0) / risk * 100,
        "6-12 months", "hard", "very high"⟩ := by
  simp [simulateCombinedChanges, divPct, h, Bind.bind, Except.bind]

theorem minfold_head_le (f : Simulation → ℚ) {m b : Simulation}
    {t pre post : List Simulation}
    (hsplit : b :: t = pre ++ m :: post) (hpre : ∀ a ∈ pre, f m < f a) :
    f m ≤ f b := by
  cases pre with
  | nil =>
    rw [List.nil_append] at hsplit
    injection hsplit with h1 _
    rw [h1]
  | cons p pre' =>
    rw [List.cons_append] at hsplit
    injection hsplit with h1 _
    subst h1
    exact le_of_lt (hpre b (List.mem_cons_self b pre'))

/-- The first-minimum characterization of Python's `min(..., key=...)` as
realized by the `foldl` in `pythonMinBy`: the list splits around the chosen
element, every earlier element has a strictly larger key (Python `min`
keeps the incumbent on ties) and every later element a larger-or-equal
key. -/
theorem pythonMinBy_split (f : Simulation → ℚ) :
    ∀ (xs : List Simulation) (x : Simulation),
      ∃ pre post,
        x :: xs = pre ++
          (xs.foldl (fun acc s => if f s < f acc then s else acc) x) :: post ∧
        (∀ a ∈ pre,
          f (xs.foldl (fun acc s => if f s < f acc then s else acc) x) < f a) ∧
        (∀ a ∈ post,
          f (xs.foldl (fun acc s => if f s < f acc then s else acc) x) ≤ f a) := by
  intro xs
  induction xs with
  | nil =>
    intro x
    exact ⟨[], [], rfl, by simp, by simp⟩
  | cons b t ih =>
    intro x
    simp only [List.foldl_cons]
    by_cases hbx : f b < f x
    · rw [if_pos hbx]
      obtain ⟨pre, post, hsplit, hpre, hpost⟩ := ih b
      have hmb : f (t.foldl (fun acc s => if f s < f acc then s else acc) b) ≤ f b :=
        minfold_head_le f hsplit hpre
      refine ⟨x :: pre, post, ?_, ?_, hpost⟩
      · rw [List.cons_append, ← hsplit]
      · intro a ha
        rcases List.mem_cons.mp ha with ha' | ha'
        · subst ha'
          exact lt_of_le_of_lt hmb hbx
        · exact hpre a ha'
    · rw [if_neg hbx]
      have hxb : f x ≤ f b := not_lt.mp hbx
      obtain ⟨pre, post, hsplit, hpre, hpost⟩ := ih x
      cases pre with
      | nil =>
        rw [List.nil_append] at hsplit
        injection hsplit with h1 h2
        refine ⟨[], b :: t, ?_, by simp, ?_⟩
        · rw [List.nil_append, ← h1]
        · intro a ha
          rcases List.mem_cons.mp ha with ha' | ha'
          · subst ha'
            rw [← h1]
            exact hxb
          · rw [h2] at ha'
            exact hpost a ha'
      | cons p pre' =>
        rw [List.cons_append] at hsplit
        injection hsplit with h1 h2
        subst h1
        have hmx : f (t.foldl (fun acc s => if f s < f acc then s else acc) x) < f x :=
          hpre x (List.mem_cons_self x pre')
        refine ⟨x :: b :: pre', post, ?_, ?_, hpost⟩
        · rw [List.cons_append, List.cons_append, ← h2]
        · intro a ha
          rcases List.mem_cons.mp ha with ha' | ha'
          · subst ha'
            exact hmx
          · rcases List.mem_cons.mp ha' with ha'' | ha''
            · subst ha''
              exact lt_of_lt_of_le hmx hxb
            · exact hpre a (List.mem_cons_of_mem x ha'')

/-- The simulations list built by `executeInner`'s `try`-block succeeds and
selects `best_scenario` as the first minimum whenever the starting risk is
nonzero. -/
theorem executeInner_ok (risk : ℚ) (ld : LifestyleData) (h : risk ≠ 0) :
    ∃ sims best,
      executeInner risk ld = Except.ok (sims, best) ∧ sims ≠ [] ∧
      ∃ pre post, sims = pre ++ best :: post ∧
        (∀ s ∈ pre, best.projectedRisk < s.projectedRisk) ∧
        (∀ s ∈ post, best.projectedRisk ≤ s.projectedRisk) := by
  unfold executeInner
  simp only [simulateWeightLoss_ok risk _ h, simulateIncreasedActivity_ok risk _ h,
    simulateBetterSleep_ok risk _ h, simulateHealthyDiet_ok risk h,
    simulateQuitSmoking_ok risk h, simulateCombinedChanges_ok risk h,
    Bind.bind, Except.bind]
  split_ifs <;>
    exact ⟨_, _, rfl, by simp, pythonMinBy_split (fun s => s.projectedRisk) _ _⟩

/-- C9 counterexample: a run with `current_risk = 0` (here one where every
conditional intervention would qualify) aborts in the division-by-zero path
and returns the error dict with an *empty* simulations list and no
`best_scenario`, contradicting the every-run claim. -/
theorem best_scenario_zero_risk_no_sims :
    (execute 0 ⟨FieldVal.num 30, FieldVal.num 0, FieldVal.num 6, true⟩).simulations
      = [] ∧
    (execute 0 ⟨FieldVal.num 30, FieldVal.num 0, FieldVal.num 6, true⟩).bestScenario
      = none ∧
    (execute 0 ⟨FieldVal.num 30, FieldVal.num 0, FieldVal.num 6, true⟩).status
      = "error" := ⟨rfl, rfl, rfl⟩

/-- C9 amended: for every run with nonzero current risk the generated list
is non-empty and `best_scenario` is the first simulation attaining the
minimal `projected_risk` in the fixed intervention order (strictly beaten
by nothing later, strictly beating everything earlier); and on any six
simulations carrying the projected risks `[0.50, 0.35, 0.42, 0.38, 0.32,
0.15]` in that order the selection picks the sixth (combined) one. -/
theorem best_scenario_selection :
    (∀ (risk : ℚ) (ld : LifestyleData), risk ≠ 0 →
      ∃ sims best,
        execute risk ld =
          ⟨"success", sims, some risk, some best, none⟩ ∧ sims ≠ [] ∧
        ∃ pre post, sims = pre ++ best :: post ∧
          (∀ s ∈ pre, best.projectedRisk < s.projectedRisk) ∧
          (∀ s ∈ post, best.projectedRisk ≤ s.projectedRisk)) ∧
    (∀ s1 s2 s3 s4 s5 s6 : Simulation,
      s1.projectedRisk = 1/2 → s2.projectedRisk = 7/20 →
      s3.projectedRisk = 21/50 → s4.projectedRisk = 19/50 →
      s5.projectedRisk = 8/25 → s6.projectedRisk = 3/20 →
      pythonMinBy (fun s => s.projectedRisk) [s1, s2, s3, s4, s5, s6]
        = some s6) := by
  constructor
  · intro risk ld h
    obtain ⟨sims, best, hE, hne, hchar⟩ := executeInner_ok risk ld h
    refine ⟨sims, best, ?_, hne, hchar⟩
    unfold execute
    rw [hE]
  · intro s1 s2 s3 s4 s5 s6 h1 h2 h3 h4 h5 h6
    simp only [pythonMinBy, List.foldl_cons, List.foldl_nil]
    norm_num [h1, h2, h3, h4, h5, h6]

/-- C9 amended witness: the selection property at a concrete nonzero-risk
run generating all six simulations, and the concrete six-risk vector. -/
theorem best_scenario_selection_witness :
    (1/2 : ℚ) ≠ 0 ∧
    (∃ sims best,
      execute (1/2) ⟨FieldVal.num 30, FieldVal.num 0, FieldVal.num 6, true⟩ =
        ⟨"success", sims, some (1/2), some best, none⟩ ∧ sims ≠ [] ∧
      ∃ pre post, sims = pre ++ best :: post ∧
        (∀ s ∈ pre, best.projectedRisk < s.projectedRisk) ∧
        (∀ s ∈ post, best.projectedRisk ≤ s.projectedRisk)) ∧
    pythonMinBy (fun s => s.projectedRisk)
      [⟨"Weight Loss", 13/20, 1/2, 0, "", "", ""⟩,
       ⟨"Increased Physical Activity", 13/20, 7/20, 0, "", "", ""⟩,
       ⟨"Improved Sleep Quality", 13/20, 21/50, 0, "", "", ""⟩,
       ⟨"Healthy Diet Adoption", 13/20, 19/50, 0, "", "", ""⟩,
       ⟨"Smoking Cessation", 13/20, 8/25, 0, "", "", ""⟩,
       ⟨"Comprehensive Lifestyle Change", 13/20, 3/20, 0, "", "", ""⟩] =
      some ⟨"Comprehensive Lifestyle Change", 13/20, 3/20, 0, "", "", ""⟩ := by
  refine ⟨by norm_num, ?_, ?_⟩
  · exact best_scenario_selection.1 (1/2)
      ⟨FieldVal.num 30, FieldVal.num 0, FieldVal.num 6, true⟩ (by norm_num)
  · exact best_scenario_selection.2 _ _ _ _ _ _ rfl rfl rfl rfl rfl rfl

theorem safeFloat_defaulted (v : FieldVal) (d : ℚ) (h : v.defaulted = true) :
    safeFloat v d = d := by
  cases v with
  | num q => simp [FieldVal.defaulted] at h
  | missing => rfl
  | emptyStr => rfl
  | nonNumeric => rfl

/-- C10 counterexample: with `current_risk = 0` and every numeric lifestyle
field missing/empty/non-numeric, the run aborts in the division-by-zero
path of the activity simulation itself, so the increased-activity
simulation is *not* generated (the simulations list is empty),
contradicting the always-generated clause. -/
theorem activity_sim_missing_at_zero_risk :
    (execute 0 ⟨FieldVal.missing, FieldVal.emptyStr, FieldVal.nonNumeric,
        false⟩).status = "error" ∧
    ((execute 0 ⟨FieldVal.missing, FieldVal.emptyStr, FieldVal.nonNumeric,
        false⟩).simulations.map (fun s => s.intervention)) = [] := ⟨rfl, rfl⟩

/-- C10 amended: when the numeric lifestyle fields are missing, empty or
non-numeric, `safe_float` substitutes defaults `bmi=0`,
`physical_activity=0`, `sleep_hours=8`; consequently, on every run with
nonzero current risk, the weight-loss simulation is not generated
(`0 > 25` fails), the increased-activity simulation is generated
(`0 < 150`), and the better-sleep simulation is not generated (`8 < 7`
fails). -/
theorem safe_float_default_gating :
    ∀ (risk : ℚ) (ld : LifestyleData), risk ≠ 0 →
      ld.bmi.defaulted = true → ld.physicalActivity.defaulted = true →
      ld.sleepHours.defaulted = true →
      safeFloat ld.bmi 0 = 0 ∧ safeFloat ld.physicalActivity 0 = 0 ∧
      safeFloat ld.sleepHours 8 = 8 ∧
      ∃ sims best, executeInner risk ld = Except.ok (sims, best) ∧
        "Weight Loss" ∉ sims.map (fun s => s.intervention) ∧
        "Increased Physical Activity" ∈ sims.map (fun s => s.intervention) ∧
        "Improved Sleep Quality" ∉ sims.map (fun s => s.intervention) := by
  intro risk ld h hb hp hs
  have hbmi := safeFloat_defaulted ld.bmi 0 hb
  have hpa := safeFloat_defaulted ld.physicalActivity 0 hp
  have hsl := safeFloat_defaulted ld.sleepHours 8 hs
  refine ⟨hbmi, hpa, hsl, ?_⟩
  cases hsm : ld.smoking with
  | false =>
    simp only [executeInner, hbmi, hpa, hsl, hsm,
      simulateIncreasedActivity_ok risk 0 h, simulateHealthyDiet_ok risk h,
      simulateCombinedChanges_ok risk h, Bind.bind, Except.bind,
      if_neg (by norm_num : ¬(0:ℚ) > 25), if_pos (by norm_num : (0:ℚ) < 150),
      if_neg (by norm_num : ¬(8:ℚ) < 7), Bool.false_eq_true, if_false]
    refine ⟨_, _, rfl, by simp, by simp, by simp⟩
  | true =>
    simp only [executeInner, hbmi, hpa, hsl, hsm,
      simulateIncreasedActivity_ok risk 0 h, simulateHealthyDiet_ok risk h,
      simulateQuitSmoking_ok risk h, simulateCombinedChanges_ok risk h,
      Bind.bind, Except.bind,
      if_neg (by norm_num : ¬(0:ℚ) > 25), if_pos (by norm_num : (0:ℚ) < 150),
      if_neg (by norm_num : ¬(8:ℚ) < 7), if_true]
    refine ⟨_, _, rfl, by simp, by simp, by simp⟩

/-- C10 amended witness: the gating property at a concrete nonzero risk
with all three numeric fields defaulted. -/
theorem safe_float_default_gating_witness :
    (1/2 : ℚ) ≠ 0 ∧
    FieldVal.defaulted FieldVal.missing = true ∧
    FieldVal.defaulted FieldVal.emptyStr = true ∧
    FieldVal.defaulted FieldVal.nonNumeric = true ∧
    (safeFloat FieldVal.missing 0 = 0 ∧ safeFloat FieldVal.emptyStr 0 = 0 ∧
      safeFloat FieldVal.nonNumeric 8 = 8 ∧
      ∃ sims best,
        executeInner (1/2)
          ⟨FieldVal.missing, FieldVal.emptyStr, FieldVal.nonNumeric, false⟩ =
          Except.ok (sims, best) ∧
        "Weight Loss" ∉ sims.map (fun s => s.intervention) ∧
        "Increased Physical Activity" ∈ sims.map (fun s => s.intervention) ∧
        "Improved Sleep Quality" ∉ sims.map (fun s => s.intervention)) :=
  ⟨by norm_num, rfl, rfl, rfl,
    safe_float_default_gating (1/2)
      ⟨FieldVal.missing, FieldVal.emptyStr, FieldVal.nonNumeric, false⟩
      (by norm_num) rfl rfl rfl⟩

end DiabetesPred
